import Mathlib

/-!
Shallow embedding of the `react-use-watchlist` state engine
(`src/index.tsx`): the reducer, the aggregate calculators
(`generateWatchlistState`, `calculateItemTotals`, `calculateTotalItems`,
`calculateUniqueItems`) and the session operations exposed by the
provider (`setItems`, `addItem`, `updateItem`, `updateItemQuantity`,
`removeItem`, `emptyWatchlist`, and the metadata operations).

Modelling conventions:
- JS numbers are modelled as `Int` (all the arithmetic the engine does
  is sums and products).
- An open JS object's extra fields (`[key: string]: any`) are modelled
  as an association list `List (String × Int)`; object spread
  `{...a, ...b}` is modelled so that a key lookup finds `b`'s value when
  `b` has the key and `a`'s value otherwise (entries of `b` are
  prepended, leftmost entry wins on lookup).
- A falsy `id` string is the empty string; an absent optional value is
  `none`.
- Callbacks and dispatches are recorded as an `Effect` trace in the
  order the source performs them; `applyEffects` runs the dispatches
  through the reducer.
- The two operations that `throw` (`addItem` on a missing id,
  `updateItemQuantity` on an unknown item) return `Except`; a thrown
  error leaves the state untouched and produces no effects.
-/

namespace Watchlist

/-- A stored watchlist item: `id`, `price`, `quantity`, the derived
`itemTotal`, and the open-ended extra fields. -/
structure Item where
  id : String
  price : Int
  quantity : Int
  itemTotal : Int
  extra : List (String × Int)
deriving Repr, DecidableEq

/-- An item as a caller supplies it: `quantity` and `itemTotal` are
optional (`quantity?: number`, `itemTotal?: number`). -/
structure RawItem where
  id : String
  price : Int
  quantity : Option Int := none
  itemTotal : Option Int := none
  extra : List (String × Int) := []
deriving Repr, DecidableEq

/-- A partial object merged over an item by `UPDATE_ITEM`
(`{...item, ...action.payload}`): each core field is present or absent,
extra fields are an association list. -/
structure Payload where
  id : Option String := none
  price : Option Int := none
  quantity : Option Int := none
  itemTotal : Option Int := none
  extra : List (String × Int) := []
deriving Repr, DecidableEq

/-- Metadata: an open string-keyed object. -/
abbrev Metadata := List (String × Int)

/-- Shallow merge of two open objects (`{...a, ...b}`): on lookup, a key
of `b` wins, a key only in `a` keeps `a`'s value. -/
def mergeExtra (a b : List (String × Int)) : List (String × Int) :=
  b ++ a

/-- `{...item, ...payload}` for a stored item and an `UPDATE_ITEM`
payload: every field the payload carries overrides the item's. -/
def mergePayload (item : Item) (p : Payload) : Item :=
  { id := p.id.getD item.id
    price := p.price.getD item.price
    quantity := p.quantity.getD item.quantity
    itemTotal := p.itemTotal.getD item.itemTotal
    extra := mergeExtra item.extra p.extra }

/-- The whole watchlist state.  The source's `initialState` object has
no `id` key, so `id` is optional. -/
structure WatchlistState where
  id : Option String
  items : List Item
  isEmpty : Bool
  totalItems : Int
  totalUniqueItems : Nat
  metadata : Metadata
deriving Repr, DecidableEq

/-- `initialState` from the source: empty items, zero totals, empty
metadata, no `id`. -/
def initialState : WatchlistState :=
  { id := none
    items := []
    isEmpty := true
    totalItems := 0
    totalUniqueItems := 0
    metadata := [] }

/-- The reducer's `Actions` union. -/
inductive Action where
  | setItems (payload : List Item)
  | addItem (payload : Item)
  | removeItem (id : String)
  | updateItem (id : String) (payload : Payload)
  | emptyWatchlist
  | clearWatchlistMeta
  | setWatchlistMeta (payload : Metadata)
  | updateWatchlistMeta (payload : Metadata)
deriving Repr, DecidableEq

/-- `calculateItemTotals`: set each item's `itemTotal` to
`price * quantity`. -/
def calculateItemTotals (items : List Item) : List Item :=
  items.map fun item => { item with itemTotal := item.price * item.quantity }

/-- `calculateTotalItems`: sum of quantities. -/
def calculateTotalItems (items : List Item) : Int :=
  items.foldl (fun sum item => sum + item.quantity) 0

/-- `calculateUniqueItems`: the number of items. -/
def calculateUniqueItems (items : List Item) : Nat :=
  items.length

/-- `generateWatchlistState`: rebuild the state from an items list,
recomputing `items` (with totals), `totalItems`, `totalUniqueItems` and
`isEmpty`; `id` and `metadata` carry over from the current state. -/
def generateWatchlistState (state : WatchlistState) (items : List Item) :
    WatchlistState :=
  { state with
    items := calculateItemTotals items
    totalItems := calculateTotalItems items
    totalUniqueItems := calculateUniqueItems items
    isEmpty := calculateUniqueItems items == 0 }

/-- The reducer. -/
def reducer (state : WatchlistState) (action : Action) : WatchlistState :=
  match action with
  | .setItems payload =>
      generateWatchlistState state payload
  | .addItem payload =>
      generateWatchlistState state (state.items ++ [payload])
  | .updateItem id payload =>
      generateWatchlistState state
        (state.items.map fun item =>
          if item.id ≠ id then item else mergePayload item payload)
  | .removeItem id =>
      generateWatchlistState state (state.items.filter fun i => i.id ≠ id)
  | .emptyWatchlist =>
      initialState
  | .clearWatchlistMeta =>
      { state with metadata := [] }
  | .setWatchlistMeta payload =>
      { state with metadata := payload }
  | .updateWatchlistMeta payload =>
      { state with metadata := mergeExtra state.metadata payload }

/-- One observable step of a session operation: a dispatch into the
reducer or a caller-supplied callback firing, in source order. -/
inductive Effect where
  | dispatch (action : Action)
  | onSetItems (items : List RawItem)
  | onItemAdd (payload : Item)
  | onItemUpdate (payload : Payload)
  | onItemRemove (id : String)
deriving Repr, DecidableEq

/-- Run a trace's dispatches through the reducer (callbacks do not
change the state). -/
def applyEffects (state : WatchlistState) (effects : List Effect) :
    WatchlistState :=
  effects.foldl
    (fun st e =>
      match e with
      | .dispatch a => reducer st a
      | _ => st)
    state

/-- The errors the session operations can throw. -/
inductive WatchlistError where
  | missingIdentifier
  | notFound
deriving Repr, DecidableEq

/-- `item.quantity || 1`: default a falsy (absent or zero) quantity
to 1. -/
def defaultQuantity (q : Option Int) : Int :=
  match q with
  | none => 1
  | some q => if q = 0 then 1 else q

/-- `{...item, quantity}`: the full item object `addItem` builds from
its raw argument and a quantity. -/
def RawItem.withQuantity (item : RawItem) (quantity : Int) : Item :=
  { id := item.id
    price := item.price
    quantity := quantity
    itemTotal := item.itemTotal.getD 0
    extra := item.extra }

/-- `{...item, quantity}` viewed as an `UPDATE_ITEM` payload: the raw
item's fields, with `quantity` overridden (`itemTotal` is carried only
if the raw item supplied one). -/
def RawItem.payloadWithQuantity (item : RawItem) (quantity : Int) : Payload :=
  { id := some item.id
    price := some item.price
    quantity := some quantity
    itemTotal := item.itemTotal
    extra := item.extra }

/-- A stored item viewed as a full `UPDATE_ITEM` payload
(`{...currentItem, quantity}` in `updateItemQuantity`). -/
def Item.asPayload (item : Item) : Payload :=
  { id := some item.id
    price := some item.price
    quantity := some item.quantity
    itemTotal := some item.itemTotal
    extra := item.extra }

/-- `setItems`: dispatch `SET_ITEMS` with each quantity defaulted to 1
when falsy, then fire `onSetItems` with the input items. -/
def setItems (items : List RawItem) : List Effect :=
  [ .dispatch (.setItems (items.map fun item =>
      { id := item.id
        price := item.price
        quantity := defaultQuantity item.quantity
        itemTotal := item.itemTotal.getD 0
        extra := item.extra }))
  , .onSetItems items ]

/-- `addItem(item, quantity = 1)`: throw on a falsy id; append a fresh
item when the id is unknown, otherwise update the stored item with the
accumulated quantity. -/
def addItem (state : WatchlistState) (item : RawItem) (quantity : Int) :
    Except WatchlistError (List Effect) :=
  if item.id = "" then
    .error .missingIdentifier
  else
    match state.items.find? (fun i => i.id = item.id) with
    | none =>
        let payload := item.withQuantity quantity
        .ok [.dispatch (.addItem payload), .onItemAdd payload]
    | some currentItem =>
        let payload := item.payloadWithQuantity (currentItem.quantity + quantity)
        .ok [.dispatch (.updateItem item.id payload), .onItemUpdate payload]

/-- `updateItem(id, payload)`: no-op when `id` or `payload` is falsy,
otherwise dispatch `UPDATE_ITEM` and fire `onItemUpdate` with the raw
payload. -/
def updateItem (id : String) (payload : Option Payload) : List Effect :=
  if id = "" then []
  else
    match payload with
    | none => []
    | some p => [.dispatch (.updateItem id p), .onItemUpdate p]

/-- `updateItemQuantity(id, quantity)`: a non-positive quantity fires
`onItemRemove` then dispatches `REMOVE_ITEM`; otherwise throw when the
item is unknown, else dispatch `UPDATE_ITEM` with the stored item at
the new quantity. -/
def updateItemQuantity (state : WatchlistState) (id : String)
    (quantity : Int) : Except WatchlistError (List Effect) :=
  if quantity ≤ 0 then
    .ok [.onItemRemove id, .dispatch (.removeItem id)]
  else
    match state.items.find? (fun item => item.id = id) with
    | none => .error .notFound
    | some currentItem =>
        let payload := Item.asPayload { currentItem with quantity := quantity }
        .ok [.dispatch (.updateItem id payload), .onItemUpdate payload]

/-- `removeItem(id)`: no-op on a falsy id, otherwise dispatch
`REMOVE_ITEM` then fire `onItemRemove`. -/
def removeItem (id : String) : List Effect :=
  if id = "" then []
  else [.dispatch (.removeItem id), .onItemRemove id]

/-- `emptyWatchlist()`: dispatch `EMPTY_WATCHLIST`; no callback. -/
def emptyWatchlist : List Effect :=
  [.dispatch .emptyWatchlist]

/-- `clearWatchlistMetadata()`. -/
def clearWatchlistMetadata : List Effect :=
  [.dispatch .clearWatchlistMeta]

/-- `setWatchlistMetadata(metadata)`: no-op on a falsy argument. -/
def setWatchlistMetadata (metadata : Option Metadata) : List Effect :=
  match metadata with
  | none => []
  | some m => [.dispatch (.setWatchlistMeta m)]

/-- `updateWatchlistMetadata(metadata)`: no-op on a falsy argument. -/
def updateWatchlistMetadata (metadata : Option Metadata) : List Effect :=
  match metadata with
  | none => []
  | some m => [.dispatch (.updateWatchlistMeta m)]

/-- The session's operation surface, as data: one constructor per
operation a caller can invoke. -/
inductive SessionOp where
  | setItems (items : List RawItem)
  | addItem (item : RawItem) (quantity : Int)
  | updateItem (id : String) (payload : Option Payload)
  | updateItemQuantity (id : String) (quantity : Int)
  | removeItem (id : String)
  | emptyWatchlist
  | clearWatchlistMetadata
  | setWatchlistMetadata (metadata : Option Metadata)
  | updateWatchlistMetadata (metadata : Option Metadata)
deriving Repr, DecidableEq

/-- Run one session operation against the current state, producing its
effect trace (or the error it throws). -/
def runOp (state : WatchlistState) : SessionOp →
    Except WatchlistError (List Effect)
  | .setItems items => .ok (setItems items)
  | .addItem item quantity => addItem state item quantity
  | .updateItem id payload => .ok (updateItem id payload)
  | .updateItemQuantity id quantity => updateItemQuantity state id quantity
  | .removeItem id => .ok (removeItem id)
  | .emptyWatchlist => .ok emptyWatchlist
  | .clearWatchlistMetadata => .ok clearWatchlistMetadata
  | .setWatchlistMetadata m => .ok (setWatchlistMetadata m)
  | .updateWatchlistMetadata m => .ok (updateWatchlistMetadata m)

/-- The state after a session operation: a thrown error happens before
any dispatch, so it leaves the state unchanged. -/
def applyOp (state : WatchlistState) (op : SessionOp) : WatchlistState :=
  match runOp state op with
  | .error _ => state
  | .ok effects => applyEffects state effects

instance {ε α : Type _} [DecidableEq ε] [DecidableEq α] :
    DecidableEq (Except ε α) := fun x y =>
  match x, y with
  | .ok a, .ok b =>
      if h : a = b then .isTrue (h ▸ rfl)
      else .isFalse (fun hc => h (Except.ok.inj hc))
  | .error a, .error b =>
      if h : a = b then .isTrue (h ▸ rfl)
      else .isFalse (fun hc => h (Except.error.inj hc))
  | .ok _, .error _ => .isFalse (fun hc => Except.noConfusion hc)
  | .error _, .ok _ => .isFalse (fun hc => Except.noConfusion hc)

/-- A concrete consistent one-item state, used to instantiate the
universally quantified theorems below. -/
def sampleState : WatchlistState :=
  { id := none
    items := [{ id := "a", price := 3, quantity := 2, itemTotal := 6,
                extra := [] }]
    isEmpty := false
    totalItems := 2
    totalUniqueItems := 1
    metadata := [] }

/-- A concrete state whose stored `itemTotal` (999) disagrees with
`price * quantity` (6): its derived fields are skewed. -/
def skewedState : WatchlistState :=
  { id := none
    items := [{ id := "a", price := 2, quantity := 3, itemTotal := 999,
                extra := [] }]
    isEmpty := false
    totalItems := 3
    totalUniqueItems := 1
    metadata := [] }

/-- A concrete consistent state holding a single item whose id is the
empty (falsy) string. -/
def emptyIdState : WatchlistState :=
  { id := none
    items := [{ id := "", price := 5, quantity := 1, itemTotal := 5,
                extra := [] }]
    isEmpty := false
    totalItems := 1
    totalUniqueItems := 1
    metadata := [] }

/-- The derived-field consistency invariant of a state: `totalItems` is
the sum of the quantities, `totalUniqueItems` is the number of items,
`isEmpty` reflects emptiness, and every item's `itemTotal` is its
`price * quantity`. -/
def invariant (s : WatchlistState) : Prop :=
  s.totalItems = calculateTotalItems s.items ∧
  s.totalUniqueItems = s.items.length ∧
  s.isEmpty = (s.totalUniqueItems == 0) ∧
  ∀ i ∈ s.items, i.itemTotal = i.price * i.quantity

instance (s : WatchlistState) : Decidable (invariant s) := by
  unfold invariant; infer_instance

/-- No two items of the state share an `id`. -/
def distinctIds (s : WatchlistState) : Prop :=
  (s.items.map Item.id).Nodup

instance (s : WatchlistState) : Decidable (distinctIds s) := by
  unfold distinctIds; infer_instance

/-- The side condition under which a session operation preserves id
distinctness: `setItems` must be given a list with pairwise-distinct
ids, and `updateItem`'s payload must not rewrite the target's id to a
different one; every other operation needs nothing. -/
def opPreservesIds : SessionOp → Prop
  | .setItems items => (items.map RawItem.id).Nodup
  | .updateItem id payload =>
      match payload with
      | none => True
      | some p => p.id = none ∨ p.id = some id
  | _ => True

instance : (op : SessionOp) → Decidable (opPreservesIds op)
  | .setItems items =>
      inferInstanceAs (Decidable (items.map RawItem.id).Nodup)
  | .updateItem id payload =>
      match payload with
      | none => inferInstanceAs (Decidable True)
      | some p => inferInstanceAs (Decidable (p.id = none ∨ p.id = some id))
  | .addItem _ _ => inferInstanceAs (Decidable True)
  | .updateItemQuantity _ _ => inferInstanceAs (Decidable True)
  | .removeItem _ => inferInstanceAs (Decidable True)
  | .emptyWatchlist => inferInstanceAs (Decidable True)
  | .clearWatchlistMetadata => inferInstanceAs (Decidable True)
  | .setWatchlistMetadata _ => inferInstanceAs (Decidable True)
  | .updateWatchlistMetadata _ => inferInstanceAs (Decidable True)

lemma calculateTotalItems_calculateItemTotals_aux (l : List Item) :
    ∀ a : Int,
      (calculateItemTotals l).foldl (fun sum item => sum + item.quantity) a =
        l.foldl (fun sum item => sum + item.quantity) a := by
  induction l with
  | nil => intro a; rfl
  | cons x xs ih => intro a; simpa [calculateItemTotals] using ih (a + x.quantity)

/-- Recomputing per-item totals does not change the quantity sum. -/
lemma calculateTotalItems_calculateItemTotals (l : List Item) :
    calculateTotalItems (calculateItemTotals l) = calculateTotalItems l :=
  calculateTotalItems_calculateItemTotals_aux l 0

/-- Recomputing per-item totals does not change ids. -/
lemma calculateItemTotals_map_id (l : List Item) :
    (calculateItemTotals l).map Item.id = l.map Item.id := by
  simp [calculateItemTotals]

/-- Recomputing per-item totals does not change the length. -/
lemma calculateItemTotals_length (l : List Item) :
    (calculateItemTotals l).length = l.length := by
  simp [calculateItemTotals]

/-- `generateWatchlistState` always re-establishes the derived-field
invariant, whatever the incoming state was. -/
lemma invariant_generateWatchlistState (s : WatchlistState) (l : List Item) :
    invariant (generateWatchlistState s l) := by
  refine ⟨?_, ?_, rfl, ?_⟩
  · exact (calculateTotalItems_calculateItemTotals l).symm
  · simpa [generateWatchlistState, calculateUniqueItems] using
      (calculateItemTotals_length l).symm
  · intro i hi
    simp only [generateWatchlistState, calculateItemTotals, List.mem_map] at hi
    obtain ⟨j, _, rfl⟩ := hi
    rfl

/-- The canonical empty state satisfies the invariant. -/
lemma invariant_initialState : invariant initialState := by
  decide

/-- A transition that only rewrites `metadata` preserves the
invariant. -/
lemma invariant_metadata_update {s : WatchlistState} (h : invariant s)
    (m : Metadata) : invariant { s with metadata := m } := h

/-- C1.  As literally stated — for *every* state, every action yields a
state with consistent derived fields — the claim fails: the three
metadata actions copy `items` and the derived fields over unchanged, so
a state whose `totalItems` disagrees with its items stays inconsistent
across `ClearMetadata`.  Here `totalItems = 1` with no items survives
the transition. -/
theorem C1_counterexample :
    ¬ invariant
        (reducer
          { id := none, items := [], isEmpty := true, totalItems := 1,
            totalUniqueItems := 0, metadata := [("a", 1)] }
          .clearWatchlistMeta) := by
  decide

/-- C1 (amended: the derived-field consistency is an invariant — it is
preserved by every reducer action from any consistent state, and the
items-affecting actions and EmptyWatchlist even re-establish it
unconditionally): after any action on a state whose `totalItems`,
`totalUniqueItems`, `isEmpty` and per-item `itemTotal`s agree with its
items, the resulting state's `totalItems` equals the sum of the
quantities of its items, `totalUniqueItems` equals the length of its
items, `isEmpty` equals `totalUniqueItems == 0`, and every item's
`itemTotal` equals its `price * quantity`. -/
theorem C1_invariant_preserved (s : WatchlistState) (a : Action)
    (h : invariant s) : invariant (reducer s a) := by
  cases a with
  | setItems payload => exact invariant_generateWatchlistState s payload
  | addItem payload => exact invariant_generateWatchlistState s _
  | removeItem id => exact invariant_generateWatchlistState s _
  | updateItem id payload => exact invariant_generateWatchlistState s _
  | emptyWatchlist => exact invariant_initialState
  | clearWatchlistMeta => exact invariant_metadata_update h []
  | setWatchlistMeta payload => exact invariant_metadata_update h _
  | updateWatchlistMeta payload => exact invariant_metadata_update h _

/-- Witness for C1: the invariant concretely propagates through an
`ADD_ITEM` transition from the empty state. -/
theorem C1_invariant_preserved_witness :
    invariant
      (reducer initialState
        (.addItem { id := "a", price := 3, quantity := 2, itemTotal := 0,
                    extra := [] })) :=
  C1_invariant_preserved initialState _ (by decide)

/-- C7.  `emptyWatchlist` resets everything: for every prior state the
resulting state has no items, zero totals, `isEmpty = true`, empty
metadata, and the current `id` is discarded (the canonical empty state
has no `id`). -/
theorem C7_emptyWatchlist_resets (s : WatchlistState) :
    applyOp s .emptyWatchlist = initialState ∧
    (applyOp s .emptyWatchlist).items = [] ∧
    (applyOp s .emptyWatchlist).totalItems = 0 ∧
    (applyOp s .emptyWatchlist).totalUniqueItems = 0 ∧
    (applyOp s .emptyWatchlist).isEmpty = true ∧
    (applyOp s .emptyWatchlist).metadata = [] ∧
    (applyOp s .emptyWatchlist).id = none :=
  ⟨rfl, rfl, rfl, rfl, rfl, rfl, rfl⟩

/-- C8.  `ClearMetadata` is idempotent: dispatching it twice through
the reducer yields the same state as dispatching it once. -/
theorem C8_clearMetadata_idempotent (s : WatchlistState) :
    reducer (reducer s .clearWatchlistMeta) .clearWatchlistMeta =
      reducer s .clearWatchlistMeta :=
  rfl

/-- C5.  `setItems` replaces the items wholesale: the resulting items
are exactly the supplied list (each quantity defaulted to 1 when falsy
or absent, totals recomputed), independent of the prior state; in
particular a second `setItems` leaves only the second call's items. -/
theorem C5_setItems_replaces (s : WatchlistState) (L : List RawItem) :
    (applyOp s (.setItems L)).items =
      L.map (fun r =>
        { id := r.id, price := r.price,
          quantity := defaultQuantity r.quantity,
          itemTotal := r.price * defaultQuantity r.quantity,
          extra := r.extra }) ∧
    ∀ (s' : WatchlistState) (L₁ : List RawItem),
      (applyOp (applyOp s' (.setItems L₁)) (.setItems L)).items =
        (applyOp s (.setItems L)).items := by
  have key : ∀ t : WatchlistState,
      (applyOp t (.setItems L)).items =
        (L.map fun item =>
          ({ id := item.id, price := item.price,
             quantity := defaultQuantity item.quantity,
             itemTotal := item.itemTotal.getD 0,
             extra := item.extra } : Item)).map
          (fun item => { item with itemTotal := item.price * item.quantity }) :=
    fun t => rfl
  constructor
  · rw [key s, List.map_map]
    rfl
  · intro s' L₁
    rw [key, key]

lemma mergePayload_id_of_agree (it : Item) (p : Payload) (id : String)
    (hit : it.id = id) (hp : p.id = none ∨ p.id = some id) :
    (mergePayload it p).id = it.id := by
  cases hp with
  | inl h => simp [mergePayload, h]
  | inr h => simp [mergePayload, h, hit]

/-- An `UPDATE_ITEM` whose payload does not move the id leaves the id
sequence untouched. -/
lemma reducer_updateItem_map_id (s : WatchlistState) (id : String)
    (p : Payload) (hp : p.id = none ∨ p.id = some id) :
    (reducer s (.updateItem id p)).items.map Item.id =
      s.items.map Item.id := by
  show (generateWatchlistState s _).items.map Item.id = _
  unfold generateWatchlistState
  rw [calculateItemTotals_map_id, List.map_map]
  refine List.map_congr_left ?_
  intro i _
  by_cases h : i.id = id
  · simp only [Function.comp_apply, h, ne_eq, not_true_eq_false, if_false]
    rw [mergePayload_id_of_agree i p id h hp]
    exact h
  · simp [Function.comp_apply, h]

/-- A `REMOVE_ITEM` keeps a distinct id sequence distinct. -/
lemma distinctIds_reducer_removeItem (s : WatchlistState) (id : String)
    (hs : distinctIds s) : distinctIds (reducer s (.removeItem id)) := by
  unfold distinctIds at hs ⊢
  show ((generateWatchlistState s _).items.map Item.id).Nodup
  unfold generateWatchlistState
  rw [calculateItemTotals_map_id]
  exact hs.sublist ((List.filter_sublist s.items).map Item.id)

/-- C2.  As literally stated the claim fails: `setItems` stores its
input list as-is, so calling it with a duplicated id on a
duplicate-free state yields a state with two items sharing an id. -/
theorem C2_counterexample :
    ¬ distinctIds (applyOp initialState (.setItems
      [{ id := "a", price := 1 }, { id := "a", price := 2 }])) := by
  decide

/-- C2 (amended: every session operation preserves id-distinctness,
provided `setItems` is given a list with pairwise-distinct ids and
`updateItem`'s payload does not rewrite the target id to a different
one; all remaining operations — `addItem`, `updateItemQuantity`,
`removeItem`, `emptyWatchlist` and the metadata operations — need no
side condition): from a state with no two items sharing an id, such an
operation yields a state with no two items sharing an id. -/
theorem C2_ids_distinct (s : WatchlistState) (op : SessionOp)
    (hs : distinctIds s) (hop : opPreservesIds op) :
    distinctIds (applyOp s op) := by
  cases op with
  | setItems L =>
      have key : (applyOp s (.setItems L)).items.map Item.id =
          L.map RawItem.id := by
        show (generateWatchlistState s _).items.map Item.id = _
        unfold generateWatchlistState
        rw [calculateItemTotals_map_id, List.map_map]
        rfl
      unfold distinctIds
      rw [key]
      exact hop
  | addItem item q =>
      by_cases hid : item.id = ""
      · simpa [applyOp, runOp, addItem, hid] using hs
      · rcases hfind : s.items.find? (fun i => i.id = item.id) with _ | cur
        · have key : applyOp s (.addItem item q) =
              reducer s (.addItem (item.withQuantity q)) := by
            simp [applyOp, runOp, addItem, hid, hfind, applyEffects]
          rw [key]
          unfold distinctIds
          show ((generateWatchlistState s _).items.map Item.id).Nodup
          unfold generateWatchlistState
          rw [calculateItemTotals_map_id, List.map_append]
          rw [List.nodup_append]
          refine ⟨hs, List.nodup_singleton _, ?_⟩
          intro a ha hb
          rw [List.find?_eq_none] at hfind
          simp only [List.mem_map] at ha
          obtain ⟨i, hi, rfl⟩ := ha
          simp only [RawItem.withQuantity, List.map_cons, List.map_nil,
            List.mem_singleton] at hb
          exact hfind i hi (by simp [hb])
        · have key : applyOp s (.addItem item q) =
              reducer s (.updateItem item.id
                (item.payloadWithQuantity (cur.quantity + q))) := by
            simp [applyOp, runOp, addItem, hid, hfind, applyEffects]
          rw [key]
          unfold distinctIds
          rw [reducer_updateItem_map_id s item.id _ (Or.inr rfl)]
          exact hs
  | updateItem id payload =>
      rcases payload with _ | p
      · simpa [applyOp, runOp, updateItem] using hs
      · by_cases hid : id = ""
        · simpa [applyOp, runOp, updateItem, hid] using hs
        · have key : applyOp s (.updateItem id (some p)) =
              reducer s (.updateItem id p) := by
            simp [applyOp, runOp, updateItem, hid, applyEffects]
          rw [key]
          unfold distinctIds
          rw [reducer_updateItem_map_id s id p hop]
          exact hs
  | updateItemQuantity id q =>
      by_cases hq : q ≤ 0
      · have key : applyOp s (.updateItemQuantity id q) =
            reducer s (.removeItem id) := by
          simp [applyOp, runOp, updateItemQuantity, hq, applyEffects]
        rw [key]
        exact distinctIds_reducer_removeItem s id hs
      · rcases hfind : s.items.find? (fun i => i.id = id) with _ | cur
        · simpa [applyOp, runOp, updateItemQuantity, hq, hfind] using hs
        · have hcur : cur.id = id := by
            have := List.find?_some hfind
            simpa using this
          have key : applyOp s (.updateItemQuantity id q) =
              reducer s (.updateItem id
                (Item.asPayload { cur with quantity := q })) := by
            simp [applyOp, runOp, updateItemQuantity, hq, hfind, applyEffects]
          rw [key]
          unfold distinctIds
          rw [reducer_updateItem_map_id s id _ (Or.inr (by simp [Item.asPayload, hcur]))]
          exact hs
  | removeItem id =>
      by_cases hid : id = ""
      · simpa [applyOp, runOp, removeItem, hid] using hs
      · have key : applyOp s (.removeItem id) = reducer s (.removeItem id) := by
          simp [applyOp, runOp, removeItem, hid, applyEffects]
        rw [key]
        exact distinctIds_reducer_removeItem s id hs
  | emptyWatchlist =>
      show distinctIds initialState
      decide
  | clearWatchlistMetadata => exact hs
  | setWatchlistMetadata m =>
      rcases m with _ | m
      · exact hs
      · exact hs
  | updateWatchlistMetadata m =>
      rcases m with _ | m
      · exact hs
      · exact hs

/-- Witness for C2: a concrete duplicate-free `setItems` run keeps the
ids distinct. -/
theorem C2_ids_distinct_witness :
    distinctIds (applyOp initialState (.setItems
      [{ id := "a", price := 1 }, { id := "b", price := 2 }])) :=
  C2_ids_distinct initialState _ (by decide) (by decide)

/-- `find?` returns the head of the filtered list. -/
lemma find?_eq_head?_filter (p : Item → Bool) (l : List Item) :
    l.find? p = (l.filter p).head? := by
  induction l with
  | nil => rfl
  | cons x xs ih =>
      by_cases h : p x
      · rw [List.find?_cons_of_pos _ h, List.filter_cons_of_pos h]
        rfl
      · rw [List.find?_cons_of_neg _ h, List.filter_cons_of_neg h, ih]

/-- The items a reducer `UPDATE_ITEM` transition stores. -/
lemma reducer_updateItem_items (s : WatchlistState) (id : String)
    (p : Payload) :
    (reducer s (.updateItem id p)).items =
      calculateItemTotals (s.items.map fun item =>
        if item.id ≠ id then item else mergePayload item p) :=
  rfl

/-- The items a reducer `ADD_ITEM` transition stores. -/
lemma reducer_addItem_items (s : WatchlistState) (p : Item) :
    (reducer s (.addItem p)).items =
      calculateItemTotals (s.items ++ [p]) :=
  rfl

/-- The items a reducer `REMOVE_ITEM` transition stores. -/
lemma reducer_removeItem_items (s : WatchlistState) (id : String) :
    (reducer s (.removeItem id)).items =
      calculateItemTotals (s.items.filter fun i => i.id ≠ id) :=
  rfl

/-- `calculateItemTotals` as a `map`. -/
lemma calculateItemTotals_eq_map (l : List Item) :
    calculateItemTotals l =
      l.map (fun i => { i with itemTotal := i.price * i.quantity }) :=
  rfl

/-- Filtering on the id commutes with mapping an id-preserving
function. -/
lemma filter_id_map_comm (l : List Item) (x : String) (f : Item → Item)
    (hf : ∀ i, (f i).id = i.id) :
    (l.map f).filter (fun i => i.id = x) =
      (l.filter (fun i => i.id = x)).map f := by
  induction l with
  | nil => rfl
  | cons a as ih =>
      by_cases h : a.id = x
      · simp [List.filter_cons, hf, h, ih]
      · simp [List.filter_cons, hf, h, ih]

/-- When the id is known, `addItem` reduces to an `UPDATE_ITEM`
dispatch carrying the raw item with the accumulated quantity. -/
lemma applyOp_addItem_present (s : WatchlistState) (item : RawItem)
    (q : Int) (cur : Item) (hx : item.id ≠ "")
    (hfind : s.items.find? (fun i => i.id = item.id) = some cur) :
    applyOp s (.addItem item q) =
      reducer s (.updateItem item.id
        (item.payloadWithQuantity (cur.quantity + q))) := by
  simp [applyOp, runOp, addItem, hx, hfind, applyEffects]

/-- When the id is unknown, `addItem` reduces to an `ADD_ITEM`
dispatch carrying the raw item at the requested quantity. -/
lemma applyOp_addItem_absent (s : WatchlistState) (item : RawItem)
    (q : Int) (hx : item.id ≠ "")
    (hfind : s.items.find? (fun i => i.id = item.id) = none) :
    applyOp s (.addItem item q) =
      reducer s (.addItem (item.withQuantity q)) := by
  simp [applyOp, runOp, addItem, hx, hfind, applyEffects]

/-- The heart of the duplicate-add policy: when the state holds exactly
one item with the raw item's id, `addItem` leaves exactly one item with
that id, namely the shallow merge of the raw item over the stored one,
with the quantities accumulated and the total recomputed. -/
lemma addItem_present_filter (s : WatchlistState) (item : RawItem)
    (q : Int) (it : Item) (hx : item.id ≠ "")
    (hfilter : s.items.filter (fun i => i.id = item.id) = [it]) :
    (applyOp s (.addItem item q)).items.filter (fun i => i.id = item.id) =
      [{ id := item.id, price := item.price, quantity := it.quantity + q,
         itemTotal := item.price * (it.quantity + q),
         extra := mergeExtra it.extra item.extra }] := by
  have hfind : s.items.find? (fun i => i.id = item.id) = some it := by
    rw [find?_eq_head?_filter, hfilter]
    rfl
  have hit : it.id = item.id := by
    have := List.find?_some hfind
    simpa using this
  have hpres : ∀ i : Item,
      ((fun j => if j.id ≠ item.id then j
        else mergePayload j (item.payloadWithQuantity (it.quantity + q))) i).id
        = i.id := by
    intro i
    by_cases h : i.id = item.id
    · simp [h, mergePayload, RawItem.payloadWithQuantity]
    · simp [h]
  rw [applyOp_addItem_present s item q it hx hfind,
    reducer_updateItem_items, calculateItemTotals_eq_map,
    filter_id_map_comm _ item.id
      (fun i => { i with itemTotal := i.price * i.quantity })
      (fun i => rfl),
    filter_id_map_comm _ item.id _ hpres, hfilter]
  simp [hit, mergePayload, RawItem.payloadWithQuantity, mergeExtra]

/-- After an `addItem` on a state with no item of that id, exactly one
item with the id is present, at the requested quantity. -/
lemma addItem_absent_filter (s : WatchlistState) (item : RawItem)
    (q : Int) (hx : item.id ≠ "")
    (hfilter : s.items.filter (fun i => i.id = item.id) = []) :
    (applyOp s (.addItem item q)).items.filter (fun i => i.id = item.id) =
      [{ id := item.id, price := item.price, quantity := q,
         itemTotal := item.price * q, extra := item.extra }] := by
  have hfind : s.items.find? (fun i => i.id = item.id) = none := by
    rw [find?_eq_head?_filter, hfilter]
    rfl
  rw [applyOp_addItem_absent s item q hx hfind,
    reducer_addItem_items, calculateItemTotals_eq_map,
    List.map_append, List.filter_append,
    filter_id_map_comm _ item.id
      (fun i => { i with itemTotal := i.price * i.quantity })
      (fun i => rfl), hfilter]
  simp [RawItem.withQuantity, List.filter_cons]

/-- C3.  As literally stated the claim fails at a falsy id: a state can
hold an item whose id is the empty string, and `addItem` with that id
throws `MissingIdentifier` and leaves the quantity unchanged instead of
accumulating it. -/
theorem C3_counterexample :
    ((({ id := none,
         items := [{ id := "", price := 5, quantity := 1, itemTotal := 5,
                     extra := [] }],
         isEmpty := false, totalItems := 1, totalUniqueItems := 1,
         metadata := [] } : WatchlistState).items.filter
        (fun i => i.id = "")).map Item.quantity = [1]) ∧
    ¬ (((applyOp
          { id := none,
            items := [{ id := "", price := 5, quantity := 1, itemTotal := 5,
                        extra := [] }],
            isEmpty := false, totalItems := 1, totalUniqueItems := 1,
            metadata := [] }
          (.addItem { id := "", price := 5 } 1)).items.filter
        (fun i => i.id = "")).map Item.quantity = [1 + 1]) := by
  constructor
  · decide
  · decide

/-- C3 (amended: the claim holds for a truthy (non-empty) id — for a
falsy id `addItem` throws `MissingIdentifier` and changes nothing —
and with "still contains exactly one item with id x" read as its
presupposition that the state holds exactly one item with id x): if
the state holds exactly one item with id `x`, of quantity `k`, then
`addItem` with an item of id `x` and requested quantity `q` yields a
state holding exactly one item with id `x`, of quantity `k + q`; and
calling `addItem` twice with the same truthy id and quantity `q` on a
state with no item of that id yields one item of quantity `q + q`, not
two items. -/
theorem C3_addItem_accumulates (s : WatchlistState) (x : String)
    (k q : Int) (item : RawItem) (it : Item) (hx : x ≠ "")
    (hid : item.id = x)
    (hfilter : s.items.filter (fun i => i.id = x) = [it])
    (hk : it.quantity = k) :
    (((applyOp s (.addItem item q)).items.filter
        (fun i => i.id = x)).map Item.quantity = [k + q]) ∧
    ∀ (s' : WatchlistState) (item' : RawItem) (q' : Int), item'.id ≠ "" →
      s'.items.filter (fun i => i.id = item'.id) = [] →
      ((applyOp (applyOp s' (.addItem item' q')) (.addItem item' q')).items.filter
          (fun i => i.id = item'.id)).map Item.quantity = [q' + q'] := by
  constructor
  · subst hid hk
    rw [addItem_present_filter s item q it hx hfilter]
    rfl
  · intro s' item' q' hx' hempty
    have h1 := addItem_absent_filter s' item' q' hx' hempty
    have h2 := addItem_present_filter (applyOp s' (.addItem item' q'))
      item' q' _ hx' h1
    rw [h2]
    rfl

/-- Witness for C3: starting empty, adding `{id := "a", price := 1000}`
twice at quantity 1 leaves exactly one item with id `"a"`, of
quantity `1 + 1`. -/
theorem C3_addItem_accumulates_witness :
    (((applyOp (applyOp initialState (.addItem { id := "a", price := 1000 } 1))
        (.addItem { id := "a", price := 1000 } 1)).items.filter
        (fun i => i.id = "a")).map Item.quantity = [1 + 1]) :=
  (C3_addItem_accumulates
    (applyOp initialState (.addItem { id := "a", price := 1000 } 1))
    "a" 1 1 { id := "a", price := 1000 }
    { id := "a", price := 1000, quantity := 1, itemTotal := 1000, extra := [] }
    (by decide) rfl (by decide) rfl).1

/-- C4.  `addItem` fails, and then with `MissingIdentifier`, exactly
when the supplied item's id is falsy; `updateItemQuantity` with a
positive quantity fails, and then with `NotFound`, exactly when no item
with the id exists; and a failing operation leaves the state unchanged
(the throw happens before any dispatch or callback, so no effect is
produced). -/
theorem C4_failure_modes (s : WatchlistState) (item : RawItem) (q : Int)
    (id : String) (qty : Int) (hqty : 0 < qty) :
    (addItem s item q = .error .missingIdentifier ↔ item.id = "") ∧
    (∀ e, addItem s item q = .error e → e = .missingIdentifier) ∧
    (updateItemQuantity s id qty = .error .notFound ↔
      s.items.find? (fun i => i.id = id) = none) ∧
    (∀ e, updateItemQuantity s id qty = .error e → e = .notFound) ∧
    (∀ (op : SessionOp) (e : WatchlistError),
      runOp s op = .error e → applyOp s op = s) := by
  have hqty' : ¬ qty ≤ 0 := by omega
  refine ⟨?_, ?_, ?_, ?_, ?_⟩
  · by_cases h : item.id = ""
    · simp [addItem, h]
    · rcases hf : s.items.find? (fun i => i.id = item.id) with _ | cur <;>
        simp [addItem, h, hf]
  · intro e he
    by_cases h : item.id = ""
    · simp [addItem, h] at he
      exact he.symm
    · rcases hf : s.items.find? (fun i => i.id = item.id) with _ | cur <;>
        simp [addItem, h, hf] at he
  · rcases hf : s.items.find? (fun i => i.id = id) with _ | cur <;>
      simp [updateItemQuantity, hqty', hf]
  · intro e he
    rcases hf : s.items.find? (fun i => i.id = id) with _ | cur <;>
      simp [updateItemQuantity, hqty', hf] at he
    exact he.symm
  · intro op e he
    simp [applyOp, he]

/-- Witness for C4: on a one-item state, `addItem` with an empty id
fails with `MissingIdentifier`, `updateItemQuantity "b" 2` fails with
`NotFound`, and both failures leave the state as it was. -/
theorem C4_failure_modes_witness :
    (addItem sampleState { id := "", price := 7 } 1 =
        .error .missingIdentifier ↔ ("" : String) = "") ∧
    (∀ e, addItem sampleState { id := "", price := 7 } 1 = .error e →
      e = .missingIdentifier) ∧
    (updateItemQuantity sampleState "b" 2 = .error .notFound ↔
      sampleState.items.find? (fun i => i.id = "b") = none) ∧
    (∀ e, updateItemQuantity sampleState "b" 2 = .error e →
      e = .notFound) ∧
    (∀ (op : SessionOp) (e : WatchlistError),
      runOp sampleState op = .error e → applyOp sampleState op = sampleState) :=
  C4_failure_modes sampleState { id := "", price := 7 } 1 "b" 2 (by decide)

/-- C6.  A non-positive quantity is a removal: on a state holding an
item with id `x`, `updateItemQuantity x q` with `q ≤ 0` produces
exactly the trace "fire `onItemRemove x`, then dispatch
`REMOVE_ITEM x`" (one removal callback, before the dispatch), and the
resulting state has no item with id `x`; and for any positive quantity
the operation stores the item with that positive quantity, so it never
stores a zero-quantity item. -/
theorem C6_nonpos_quantity_removes (s : WatchlistState) (x : String)
    (q : Int) (hmem : ∃ it ∈ s.items, it.id = x) (hq : q ≤ 0) :
    runOp s (.updateItemQuantity x q) =
      .ok [.onItemRemove x, .dispatch (.removeItem x)] ∧
    (∀ i ∈ (applyOp s (.updateItemQuantity x q)).items, i.id ≠ x) ∧
    (∀ q' : Int, 0 < q' →
      ∀ i ∈ (applyOp s (.updateItemQuantity x q')).items,
        i.id = x → i.quantity = q') := by
  refine ⟨by simp [runOp, updateItemQuantity, hq], ?_, ?_⟩
  · have key : applyOp s (.updateItemQuantity x q) =
        reducer s (.removeItem x) := by
      simp [applyOp, runOp, updateItemQuantity, hq, applyEffects]
    rw [key, reducer_removeItem_items, calculateItemTotals_eq_map]
    intro i hi
    simp only [List.mem_map, List.mem_filter] at hi
    obtain ⟨j, ⟨_, hj⟩, rfl⟩ := hi
    simpa using hj
  · intro q' hq' i hi hix
    have hq'' : ¬ q' ≤ 0 := by omega
    have hsome : (s.items.find? (fun i => i.id = x)).isSome := by
      rw [List.find?_isSome]
      obtain ⟨it, hit, hx⟩ := hmem
      exact ⟨it, hit, by simp [hx]⟩
    rcases hfind : s.items.find? (fun i => i.id = x) with _ | cur
    · rw [hfind] at hsome
      simp at hsome
    · have key : applyOp s (.updateItemQuantity x q') =
          reducer s (.updateItem x
            (Item.asPayload { cur with quantity := q' })) := by
        simp [applyOp, runOp, updateItemQuantity, hq'', hfind, applyEffects]
      rw [key, reducer_updateItem_items, calculateItemTotals_eq_map,
        List.map_map] at hi
      simp only [List.mem_map] at hi
      obtain ⟨a, ha, rfl⟩ := hi
      by_cases hax : a.id = x
      · simp [Function.comp, hax, mergePayload, Item.asPayload]
      · simp [Function.comp, hax] at hix

/-- Witness for C6: `updateItemQuantity "a" 0` on a one-item state
fires the removal callback once before the dispatch and leaves no item
with id `"a"`. -/
theorem C6_nonpos_quantity_removes_witness :
    runOp sampleState (.updateItemQuantity "a" 0) =
      .ok [.onItemRemove "a", .dispatch (.removeItem "a")] ∧
    (∀ i ∈ (applyOp sampleState (.updateItemQuantity "a" 0)).items,
      i.id ≠ "a") ∧
    (∀ q' : Int, 0 < q' →
      ∀ i ∈ (applyOp sampleState (.updateItemQuantity "a" q')).items,
        i.id = "a" → i.quantity = q') :=
  C6_nonpos_quantity_removes sampleState "a" 0
    ⟨{ id := "a", price := 3, quantity := 2, itemTotal := 6, extra := [] },
      by decide, rfl⟩
    (by decide)

/-- Recomputing totals fixes nothing when every stored `itemTotal` is
already `price * quantity`. -/
lemma calculateItemTotals_of_consistent (l : List Item)
    (h : ∀ i ∈ l, i.itemTotal = i.price * i.quantity) :
    calculateItemTotals l = l := by
  rw [calculateItemTotals_eq_map]
  have key : l.map (fun i => { i with itemTotal := i.price * i.quantity }) =
      l.map id := by
    refine List.map_congr_left ?_
    intro i hi
    obtain ⟨a, b, c, d, e⟩ := i
    have hd := h _ hi
    simp only at hd
    simp [hd]
  rw [key, List.map_id]

/-- On a state satisfying the invariant, rebuilding from its own items
is the identity. -/
lemma generateWatchlistState_self (s : WatchlistState) (h : invariant s) :
    generateWatchlistState s s.items = s := by
  obtain ⟨h1, h2, h3, h4⟩ := h
  obtain ⟨sid, items, isEmp, tot, uniq, md⟩ := s
  dsimp only at h1 h2 h3 h4
  unfold generateWatchlistState
  simp only [WatchlistState.mk.injEq]
  refine ⟨trivial, calculateItemTotals_of_consistent items h4, ?_, h1.symm,
    h2.symm, trivial⟩
  rw [h3, h2]
  rfl

/-- C9.  As literally stated — for *every* state — the claim's "state
unchanged" part fails: the `REMOVE_ITEM` dispatch recomputes the
derived fields, so a state whose stored `itemTotal` disagrees with
`price * quantity` does change even though no item matches the removed
id.  `skewedState` stores `itemTotal = 999` for an item with
`price * quantity = 6`. -/
theorem C9_counterexample :
    (("b" : String) ≠ "") ∧
    (∀ i ∈ skewedState.items, i.id ≠ "b") ∧
    runOp skewedState (.removeItem "b") =
      .ok [.dispatch (.removeItem "b"), .onItemRemove "b"] ∧
    applyOp skewedState (.removeItem "b") ≠ skewedState := by
  decide

/-- C9 (amended: restricted to states whose derived fields are
consistent with their items — on an inconsistent state the dispatch
recomputes and hence changes them): for every consistent state and
truthy id `x` matching no item, `removeItem x` dispatches the removal
and fires `onItemRemove x` even though the state — items and all
derived fields — is unchanged. -/
theorem C9_removeItem_callback_on_absent (s : WatchlistState) (x : String)
    (hx : x ≠ "") (habsent : ∀ i ∈ s.items, i.id ≠ x)
    (hinv : invariant s) :
    runOp s (.removeItem x) =
      .ok [.dispatch (.removeItem x), .onItemRemove x] ∧
    applyOp s (.removeItem x) = s := by
  have h1 : runOp s (.removeItem x) =
      .ok [.dispatch (.removeItem x), .onItemRemove x] := by
    simp [runOp, removeItem, hx]
  refine ⟨h1, ?_⟩
  have h2 : applyOp s (.removeItem x) = reducer s (.removeItem x) := by
    simp [applyOp, h1, applyEffects]
  rw [h2]
  show generateWatchlistState s (s.items.filter fun i => i.id ≠ x) = s
  have h3 : s.items.filter (fun i => i.id ≠ x) = s.items :=
    List.filter_eq_self.mpr (fun a ha => by simpa using habsent a ha)
  rw [h3]
  exact generateWatchlistState_self s hinv

/-- Witness for C9: removing the absent id `"b"` from the consistent
`sampleState` fires the callback and returns the state unchanged. -/
theorem C9_removeItem_callback_on_absent_witness :
    runOp sampleState (.removeItem "b") =
      .ok [.dispatch (.removeItem "b"), .onItemRemove "b"] ∧
    applyOp sampleState (.removeItem "b") = sampleState :=
  C9_removeItem_callback_on_absent sampleState "b" (by decide) (by decide)
    (by decide)

/-- C10.  As literally stated the claim fails at a falsy id: a state
can hold an item whose id is the empty string, and `addItem` with an
item of that id throws `MissingIdentifier` instead of merging — the
stored price stays 5 rather than being overwritten with the supplied
7. -/
theorem C10_counterexample :
    ((emptyIdState.items.filter (fun i => i.id = "")).map Item.price =
      [5]) ∧
    ¬ (((applyOp emptyIdState
          (.addItem { id := "", price := 7 } 1)).items.filter
          (fun i => i.id = "")).map Item.price = [7]) := by
  decide

/-- C10 (amended: for a truthy id, with "the stored item" read as its
presupposition that the state holds exactly one item with that id, and
excluding the derived `itemTotal`, which the engine always recomputes
as `price * quantity`): when the state holds exactly one item with the
raw item's id, `addItem` shallow-merges the raw item's fields over the
stored one — the supplied `price` and extra fields overwrite the
stored values, stored extra fields the raw item does not supply
survive, the quantity accumulates, and `itemTotal` is recomputed from
the merged price and quantity. -/
theorem C10_addItem_shallow_merges (s : WatchlistState) (item : RawItem)
    (q : Int) (it : Item) (hx : item.id ≠ "")
    (hfilter : s.items.filter (fun i => i.id = item.id) = [it]) :
    ∃ it' : Item,
      (applyOp s (.addItem item q)).items.filter
        (fun i => i.id = item.id) = [it'] ∧
      it'.price = item.price ∧
      it'.quantity = it.quantity + q ∧
      it'.itemTotal = item.price * (it.quantity + q) ∧
      (∀ k v, item.extra.lookup k = some v → it'.extra.lookup k = some v) ∧
      (∀ k, item.extra.lookup k = none →
        it'.extra.lookup k = it.extra.lookup k) := by
  refine ⟨_, addItem_present_filter s item q it hx hfilter, rfl, rfl, rfl,
    ?_, ?_⟩
  · intro k v hkv
    show (mergeExtra it.extra item.extra).lookup k = some v
    unfold mergeExtra
    rw [List.lookup_append, hkv]
    rfl
  · intro k hk
    show (mergeExtra it.extra item.extra).lookup k = it.extra.lookup k
    unfold mergeExtra
    rw [List.lookup_append, hk]
    rfl

/-- Witness for C10: re-adding id `"a"` with a new price 10 and a new
extra field over `sampleState` overwrites the price, accumulates the
quantity, recomputes the total, and keeps lookups of unsupplied extra
fields. -/
theorem C10_addItem_shallow_merges_witness :
    ∃ it' : Item,
      (applyOp sampleState
        (.addItem { id := "a", price := 10,
                    extra := [("color", 1)] } 4)).items.filter
        (fun i => i.id = "a") = [it'] ∧
      it'.price = 10 ∧
      it'.quantity = 2 + 4 ∧
      it'.itemTotal = 10 * (2 + 4) ∧
      (∀ k v, ([("color", 1)] : List (String × Int)).lookup k = some v →
        it'.extra.lookup k = some v) ∧
      (∀ k, ([("color", 1)] : List (String × Int)).lookup k = none →
        it'.extra.lookup k =
          ([] : List (String × Int)).lookup k) :=
  C10_addItem_shallow_merges sampleState
    { id := "a", price := 10, extra := [("color", 1)] } 4
    { id := "a", price := 3, quantity := 2, itemTotal := 6, extra := [] }
    (by decide) (by decide)

end Watchlist
